import Mathlib

/-!
Verification of the derived-metrics calculator (`deriveMetrics`) of the
farm-mapping view.  The JavaScript source takes a raw weather/soil API
response and computes an agronomic assessment: health score, stress level,
irrigation recommendation, nutrient scores and alerts, temperature alert,
7-day health trend and a composite soil-health index.

Modelling conventions (shallow embedding):
* JavaScript numbers are modelled as `ℚ` (the source only adds, subtracts,
  multiplies, divides and compares; no float-specific behaviour is relied on).
* `Math.round` is round-half-up (towards `+∞`), modelled by `jsRound`.
* A possibly-absent JSON field is an `Option`; the source's `x ?? d` is
  `Option.getD`, and `arr?.[i] ?? d` is `optIdx` followed by `getD`.
* A JSON array whose elements may be `null` is a `List (Option ℚ)`; where the
  source lets a `null` element flow into arithmetic or comparisons,
  JavaScript coerces it to `0`, modelled by `Option.getD 0`.
* `parseFloat(x.toFixed(1))` (round-half-up to one decimal) is `round1`.
* Output fields that the source formats with `toFixed` for display
  (`soilM`, `vpd`, `et0`, `deficit`, trend `tmax`/`pr`) are kept as exact
  numbers here; message strings that interpolate integers (`Math.round`
  results) are modelled exactly, while the temperature-alert message, which
  interpolates raw floats, is modelled by its level and day max/min values.
-/

/-- JavaScript `Math.round`: round half towards positive infinity. -/
def jsRound (q : ℚ) : ℤ := ⌊q + 1/2⌋

/-- JavaScript `Number(x.toFixed(1))`: round half up to one decimal place. -/
def round1 (q : ℚ) : ℚ := (jsRound (q * 10) : ℚ) / 10

/-- The raw observation record handed to `deriveMetrics`: the fields of the
weather API response that the function reads.  `temperature_2m`,
`relative_humidity_2m`, `precipitation` come from `raw.wx.current`; the
remaining fields are the hourly/daily arrays.  Every field may be absent and
every array element may be `null`. -/
structure RawObs where
  temperature_2m : Option ℚ := none
  relative_humidity_2m : Option ℚ := none
  precipitation : Option ℚ := none
  soil_temperature_0cm : Option (List (Option ℚ)) := none
  soil_moisture_0_to_1cm : Option (List (Option ℚ)) := none
  vapour_pressure_deficit : Option (List (Option ℚ)) := none
  uv_index_max : Option (List (Option ℚ)) := none
  temperature_2m_max : Option (List (Option ℚ)) := none
  temperature_2m_min : Option (List (Option ℚ)) := none
  precipitation_sum : Option (List (Option ℚ)) := none
  et0_fao_evapotranspiration : Option (List (Option ℚ)) := none
  soil_moisture_0_to_10cm_mean : Option (List (Option ℚ)) := none

/-- Source: `arr?.[i]`: `none` when the array is absent or the index is out of range
or the element itself is `null`. -/
def optIdx (a : Option (List (Option ℚ))) (i : ℕ) : Option ℚ :=
  (a.getD []).getD i none

/-- Source: `cur.temperature_2m ?? 25` -/
def tempOf (o : RawObs) : ℚ := o.temperature_2m.getD 25

/-- Source: `cur.relative_humidity_2m ?? 50` -/
def humidityOf (o : RawObs) : ℚ := o.relative_humidity_2m.getD 50

/-- Source: `cur.precipitation ?? 0` -/
def precipOf (o : RawObs) : ℚ := o.precipitation.getD 0

/-- Source: `hourly.soil_temperature_0cm?.[0] ?? temp - 2` -/
def soilTOf (o : RawObs) : ℚ := (optIdx o.soil_temperature_0cm 0).getD (tempOf o - 2)

/-- Source: `hourly.soil_moisture_0_to_1cm?.[0] ?? 0.25` -/
def soilMOf (o : RawObs) : ℚ := (optIdx o.soil_moisture_0_to_1cm 0).getD 0.25

/-- Source: `hourly.vapour_pressure_deficit?.[0] ?? 1.0` -/
def vpdOf (o : RawObs) : ℚ := (optIdx o.vapour_pressure_deficit 0).getD 1

/-- Source: `daily.uv_index_max?.[0] ?? 5` -/
def uvMaxOf (o : RawObs) : ℚ := (optIdx o.uv_index_max 0).getD 5

/-- Source: `daily.temperature_2m_max?.[0] ?? temp` -/
def tMaxOf (o : RawObs) : ℚ := (optIdx o.temperature_2m_max 0).getD (tempOf o)

/-- Source: `daily.temperature_2m_min?.[0] ?? temp - 8` -/
def tMinOf (o : RawObs) : ℚ := (optIdx o.temperature_2m_min 0).getD (tempOf o - 8)

/-- Source: `daily.et0_fao_evapotranspiration?.[0] ?? 4` -/
def et0Of (o : RawObs) : ℚ := (optIdx o.et0_fao_evapotranspiration 0).getD 4

/-- Source: `(daily.precipitation_sum || []).reduce((a, b) => a + (b || 0), 0)` -/
def precipWeekOf (o : RawObs) : ℚ :=
  (o.precipitation_sum.getD []).foldl (fun a b => a + b.getD 0) 0

/-- The health-score accumulator before rounding and clamping: start at 100
and apply the temperature, humidity, VPD, UV and soil-moisture
penalties/bonuses of the source in order. -/
def rawHealth (temp humidity vpd uvMax soilM : ℚ) : ℚ :=
  let h0 : ℚ := 100
  let h1 :=
    if temp < 10 then h0 - 30
    else if temp < 18 then h0 - (18 - temp) * 2
    else if temp > 38 then h0 - (temp - 38) * 4
    else if temp > 32 then h0 - (temp - 32) * 2
    else h0
  let h2 :=
    if humidity < 30 then h1 - 15
    else if humidity < 50 then h1 - (50 - humidity) * 0.5
    else if humidity > 90 then h1 - 10
    else h1
  let h3 :=
    if vpd > 3.5 then h2 - 20
    else if vpd > 2 then h2 - (vpd - 2) * 8
    else h2
  let h4 :=
    if uvMax > 9 then h3 - 10
    else if uvMax > 7 then h3 - 5
    else h3
  if soilM > 0.3 then h4 + 5
  else if soilM < 0.1 then h4 - 15
  else h4

/-- Source: `health = Math.max(0, Math.min(100, Math.round(health)))` -/
def healthScoreOf (temp humidity vpd uvMax soilM : ℚ) : ℤ :=
  max 0 (min 100 (jsRound (rawHealth temp humidity vpd uvMax soilM)))

/-- Stress-level buckets. -/
inductive StressLevel where
  | HEALTHY | MODERATE | HIGH | CRITICAL
deriving DecidableEq

/-- Source: `health >= 75 ? 'HEALTHY' : health >= 50 ? 'MODERATE' : health >= 30 ? 'HIGH' : 'CRITICAL'` -/
def stressLevelOf (health : ℤ) : StressLevel :=
  if health ≥ 75 then .HEALTHY
  else if health ≥ 50 then .MODERATE
  else if health ≥ 30 then .HIGH
  else .CRITICAL

/-- Irrigation urgency buckets. -/
inductive Urgency where
  | URGENT | SOON | OK
deriving DecidableEq

/-- Source: `deficit = Math.max(0, et0 * 7 - precipWeek)` -/
def deficitOf (et0 precipWeek : ℚ) : ℚ := max 0 (et0 * 7 - precipWeek)

/-- The irrigation recommendation text and urgency, exactly as built by the
source's `if (soilM < 0.1 || deficit > 30) … else if (soilM < 0.2 || deficit > 15) … else …`. -/
def irrigationOf (soilM deficit precipWeek : ℚ) : String × Urgency :=
  if soilM < 0.1 ∨ deficit > 30 then
    ("Apply " ++ toString (jsRound (deficit + 15)) ++ " mm within 24h. Soil critically dry.",
     .URGENT)
  else if soilM < 0.2 ∨ deficit > 15 then
    ("Schedule " ++ toString (jsRound (deficit + 8)) ++ " mm irrigation within 3 days.",
     .SOON)
  else
    ("Sufficient moisture. Next irrigation in ~" ++ toString (jsRound (7 - precipWeek / 3)) ++ " days.",
     .OK)

/-- Nitrogen score:
`Math.round(Math.max(0, Math.min(100, 100 - (soilT > 30 ? 20 : 0) - (soilM < 0.15 ? 30 : 0) - (vpd > 2 ? 15 : 0) - (temp > 35 ? 10 : 0))))` -/
def nScoreOf (soilT soilM vpd temp : ℚ) : ℤ :=
  jsRound (max 0 (min 100 (100 - (if soilT > 30 then (20 : ℚ) else 0)
    - (if soilM < 0.15 then 30 else 0) - (if vpd > 2 then 15 else 0)
    - (if temp > 35 then 10 else 0))))

/-- Phosphorus score:
`Math.round(Math.max(0, Math.min(100, 100 - (soilT < 10 ? 25 : 0) - (humidity < 40 ? 20 : 0) - (precip > 10 ? 10 : 0))))` -/
def pScoreOf (soilT humidity precip : ℚ) : ℤ :=
  jsRound (max 0 (min 100 (100 - (if soilT < 10 then (25 : ℚ) else 0)
    - (if humidity < 40 then 20 else 0) - (if precip > 10 then 10 else 0))))

/-- Potassium score:
`Math.round(Math.max(0, Math.min(100, 100 - (vpd > 2.5 ? 25 : 0) - (humidity > 85 ? 15 : 0) - (soilM > 0.4 ? 10 : 0))))` -/
def kScoreOf (vpd humidity soilM : ℚ) : ℤ :=
  jsRound (max 0 (min 100 (100 - (if vpd > 2.5 then (25 : ℚ) else 0)
    - (if humidity > 85 then 15 else 0) - (if soilM > 0.4 then 10 else 0))))

/-- Nitrogen advisory template. -/
def nMsg (d : ℤ) : String := "Apply 30–60 kg/ha urea (N deficit: " ++ toString d ++ "%)"

/-- Phosphorus advisory template. -/
def pMsg (d : ℤ) : String := "Apply DAP/SSP (P deficit: " ++ toString d ++ "%)"

/-- Potassium advisory template. -/
def kMsg (d : ℤ) : String := "Apply MOP/SOP (K deficit: " ++ toString d ++ "%)"

/-- The "adequate" nutrient message. -/
def adequateMsg : String := "Nutrient levels appear adequate for current conditions."

/-- The nutrient alert list: one templated advisory per score below 60, in
N, P, K order; if none, the single adequate message. -/
def nutrientAlertsOf (n p k : ℤ) : List String :=
  let l := (if n < 60 then [nMsg (100 - n)] else [])
    ++ (if p < 60 then [pMsg (100 - p)] else [])
    ++ (if k < 60 then [kMsg (100 - k)] else [])
  if l.isEmpty then [adequateMsg] else l

/-- Temperature-alert levels. -/
inductive AlertLevel where
  | OK | MODERATE | HIGH | CRITICAL
deriving DecidableEq

/-- The temperature-alert level, from the source's ordered if/else chain over
forecast day 0 (`tMax > 42` / `tMax > 36` / `tMin < 4` / `tMin < 10` / else). -/
def tempAlertLevelOf (tMax tMin : ℚ) : AlertLevel :=
  if tMax > 42 then .CRITICAL
  else if tMax > 36 then .HIGH
  else if tMin < 4 then .HIGH
  else if tMin < 10 then .MODERATE
  else .OK

/-- One entry of the 7-day health trend (the source also carries formatted
`tmax`/`pr` strings for display; the numbers are kept here). -/
structure TrendDay where
  day : ℕ
  h : ℤ
  tmax : ℚ
  pr : ℚ
deriving DecidableEq

/-- The 7-day health trend:
`(daily.temperature_2m_max || Array(7).fill(temp)).map((tmax, i) => …)`.
A `null` array element flows into JavaScript comparisons/arithmetic as `0`. -/
def trendOf (o : RawObs) (temp soilM uvMax : ℚ) : List TrendDay :=
  (o.temperature_2m_max.getD (List.replicate 7 (some temp))).enum.map (fun p =>
    let i := p.1
    let tmax := p.2.getD 0
    let sm := (optIdx o.soil_moisture_0_to_10cm_mean i).getD soilM
    let pr := (optIdx o.precipitation_sum i).getD 0
    let uv := (optIdx o.uv_index_max i).getD uvMax
    let h1 : ℚ := 100
    let h2 := if tmax > 38 then h1 - (tmax - 38) * 4 else h1
    let h3 := if tmax < 18 then h2 - (18 - tmax) * 2 else h2
    let h4 := if sm < 0.1 then h3 - 15 else h3
    let h5 := if uv > 9 then h4 - 10 else h4
    let h6 := if pr > 20 then h5 - 5 else h5
    { day := i, h := max 0 (min 100 (jsRound h6)), tmax := tmax, pr := pr })

/-- Soil moisture subscore (step function of the moisture percentage). -/
def mScoreOf (pct : ℚ) : ℚ :=
  if pct < 5 then 10
  else if pct < 15 then 40
  else if pct < 20 then 70
  else if pct > 60 then 50
  else if pct > 45 then 75
  else 100

/-- Soil temperature subscore (step function of soil temperature). -/
def stScoreOf (soilT : ℚ) : ℚ :=
  if soilT < 5 then 20
  else if soilT < 10 then 55
  else if soilT < 15 then 80
  else if soilT > 35 then 40
  else if soilT > 28 then 75
  else 100

/-- Aeration subscore:
`pct > 50 ? Math.max(20, 100 - (pct - 50) * 3) : pct < 10 ? 40 : 90` -/
def aerationOf (pct : ℚ) : ℚ :=
  if pct > 50 then max 20 (100 - (pct - 50) * 3)
  else if pct < 10 then 40
  else 90

/-- Organic-matter subscore:
`Math.round(Math.max(20, Math.min(100, 50 + (pct > 20 && pct < 45 ? 25 : 0) + (soilT > 12 && soilT < 30 ? 20 : 0) + (humidity > 55 ? 5 : -10))))` -/
def organicOf (pct soilT humidity : ℚ) : ℤ :=
  jsRound (max 20 (min 100 (50 + (if pct > 20 ∧ pct < 45 then (25 : ℚ) else 0)
    + (if soilT > 12 ∧ soilT < 30 then 20 else 0)
    + (if humidity > 55 then 5 else -10))))

/-- Microbial-activity subscore:
`Math.round(Math.max(10, Math.min(100, 100 - (soilT < 10 ? 40 : soilT > 35 ? 30 : 0) - (pct < 15 ? 35 : pct > 55 ? 20 : 0) - (vpd > 3 ? 15 : 0))))` -/
def microbialOf (soilT pct vpd : ℚ) : ℤ :=
  jsRound (max 10 (min 100 (100
    - (if soilT < 10 then (40 : ℚ) else if soilT > 35 then 30 else 0)
    - (if pct < 15 then 35 else if pct > 55 then 20 else 0)
    - (if vpd > 3 then 15 else 0))))

/-- Structure subscore:
`Math.round(Math.max(20, Math.min(100, mScore * 0.4 + aerationScore * 0.3 + stScore * 0.3)))` -/
def structureOf (m aer st : ℚ) : ℤ :=
  jsRound (max 20 (min 100 (m * 0.4 + aer * 0.3 + st * 0.3)))

/-- Soil status buckets. -/
inductive SoilStatus where
  | POOR | FAIR | GOOD | EXCELLENT
deriving DecidableEq

/-- Source: `soilHealth >= 80 ? 'EXCELLENT' : soilHealth >= 60 ? 'GOOD' : soilHealth >= 40 ? 'FAIR' : 'POOR'` -/
def soilStatusOf (h : ℤ) : SoilStatus :=
  if h ≥ 80 then .EXCELLENT
  else if h ≥ 60 then .GOOD
  else if h ≥ 40 then .FAIR
  else .POOR

/-- Soil issue strings, pushed in the source's order (moisture, soil
temperature, aeration, microbial, organic; a single healthy message when the
list would be empty). -/
def soilIssuesOf (m st aer : ℚ) (mic org : ℤ) (pct soilT : ℚ) : List String :=
  let l := (if m < 60 then
      [if pct < 20 then "💧 Low soil moisture — risk of drought stress"
       else "🌊 Excess moisture — risk of root rot & anaerobic conditions"] else [])
    ++ (if st < 60 then
      [if soilT < 12 then "❄️ Cold soil — slows nutrient uptake & microbial activity"
       else "🔥 Overly warm soil — accelerated evaporation & OM loss"] else [])
    ++ (if aer < 60 then ["🪨 Poor aeration — consider drainage or tillage improvements"] else [])
    ++ (if mic < 60 then ["🦠 Low microbial activity — apply organic amendments or compost"] else [])
    ++ (if org < 60 then ["🌿 Low organic matter — add crop residues or green manure"] else [])
  if l.isEmpty then ["✅ Soil conditions are healthy and well-balanced"] else l

/-- The agronomic assessment produced by `deriveMetrics` (numeric fields kept
as exact numbers where the source formats them for display). -/
structure Assessment where
  health : ℤ
  stressPct : ℤ
  stressLevel : StressLevel
  temp : ℚ
  humidity : ℚ
  precip : ℚ
  soilT : ℚ
  soilMFrac : ℚ
  vpd : ℚ
  uvMax : ℚ
  tMax : ℚ
  tMin : ℚ
  irrigRec : String
  irrigUrgency : Urgency
  et0 : ℚ
  deficit : ℚ
  nScore : ℤ
  pScore : ℤ
  kScore : ℤ
  nutrientAlerts : List String
  tempAlertLevel : AlertLevel
  trend : List TrendDay
  soilMoisturePct : ℚ
  mScore : ℚ
  stScore : ℚ
  aerationScore : ℚ
  organicScore : ℤ
  microbialScore : ℤ
  structureScore : ℤ
  soilHealth : ℤ
  soilStatus : SoilStatus
  soilIssues : List String
deriving DecidableEq

/-- The derived-metrics calculator, translated block by block from the
source `deriveMetrics(raw, cropType)` (the `cropType` argument is unused by
the computation). -/
def deriveMetrics (o : RawObs) : Assessment :=
  let temp := tempOf o
  let humidity := humidityOf o
  let precip := precipOf o
  let soilT := soilTOf o
  let soilM := soilMOf o
  let vpd := vpdOf o
  let uvMax := uvMaxOf o
  let health := healthScoreOf temp humidity vpd uvMax soilM
  let et0 := et0Of o
  let precipWeek := precipWeekOf o
  let deficit := deficitOf et0 precipWeek
  let irrig := irrigationOf soilM deficit precipWeek
  let n := nScoreOf soilT soilM vpd temp
  let p := pScoreOf soilT humidity precip
  let k := kScoreOf vpd humidity soilM
  let tMax := tMaxOf o
  let tMin := tMinOf o
  let pct := round1 (soilM * 100)
  let m := mScoreOf pct
  let st := stScoreOf soilT
  let aer := aerationOf pct
  let org := organicOf pct soilT humidity
  let mic := microbialOf soilT pct vpd
  let str := structureOf m aer st
  let soilHealth := jsRound ((m + st + aer + (org : ℚ) + (mic : ℚ) + (str : ℚ)) / 6)
  { health := health
    stressPct := 100 - health
    stressLevel := stressLevelOf health
    temp := temp
    humidity := humidity
    precip := precip
    soilT := soilT
    soilMFrac := soilM
    vpd := vpd
    uvMax := uvMax
    tMax := tMax
    tMin := tMin
    irrigRec := irrig.1
    irrigUrgency := irrig.2
    et0 := et0
    deficit := deficit
    nScore := n
    pScore := p
    kScore := k
    nutrientAlerts := nutrientAlertsOf n p k
    tempAlertLevel := tempAlertLevelOf tMax tMin
    trend := trendOf o temp soilM uvMax
    soilMoisturePct := pct
    mScore := m
    stScore := st
    aerationScore := aer
    organicScore := org
    microbialScore := mic
    structureScore := str
    soilHealth := soilHealth
    soilStatus := soilStatusOf soilHealth
    soilIssues := soilIssuesOf m st aer mic org pct soilT }

/-- The single error kind named by the specification. -/
inductive DeriveError where
  | invalidObservation
deriving DecidableEq

/-- The derivation entry point over a possibly-missing observation argument:
the source throws only when the observation argument itself is nullish
(`raw.wx` property access on `undefined`); every present observation,
however incomplete its fields or arrays, produces an assessment. -/
def derive (raw : Option RawObs) : Except DeriveError Assessment :=
  match raw with
  | none => .error .invalidObservation
  | some o => .ok (deriveMetrics o)

/-! ## Helper lemmas -/

lemma le_jsRound {a : ℤ} {q : ℚ} (h : (a : ℚ) ≤ q) : a ≤ jsRound q := by
  rw [jsRound, Int.le_floor]
  linarith

lemma jsRound_le {b : ℤ} {q : ℚ} (h : q ≤ (b : ℚ)) : jsRound q ≤ b := by
  rw [jsRound, Int.floor_le_iff]
  linarith

lemma jsRound_clamp_bounds (lo : ℚ) (e : ℚ) (h0 : 0 ≤ lo) (h100 : lo ≤ 100) :
    0 ≤ jsRound (max lo (min 100 e)) ∧ jsRound (max lo (min 100 e)) ≤ 100 := by
  constructor
  · exact le_jsRound (by push_cast; exact le_trans h0 (le_max_left _ _))
  · exact jsRound_le (by push_cast; exact max_le h100 (min_le_left _ _))

/-! ## C1 -/

/-- C1: for every observation, the derived health score is an integer with
`0 ≤ healthScore ≤ 100`, and the reported stress percentage is exactly
`100 - healthScore`. -/
theorem deriveMetrics_health_bounds_stress (o : RawObs) :
    0 ≤ (deriveMetrics o).health ∧ (deriveMetrics o).health ≤ 100 ∧
      (deriveMetrics o).stressPct = 100 - (deriveMetrics o).health := by
  refine ⟨le_max_left _ _, max_le (by norm_num) (min_le_left _ _), rfl⟩

/-! ## C2 -/

/-- The boundary observation of the specification: temperature exactly 38 °C,
all other inputs neutral. -/
def boundary38Obs : RawObs :=
  { temperature_2m := some 38
    relative_humidity_2m := some 50
    vapour_pressure_deficit := some [some 1]
    uv_index_max := some [some 5]
    soil_moisture_0_to_1cm := some [some 0.25] }

/-- C2, counterexample: at `temperature = 38` (humidity 50, vpd 1, uv 5,
soil moisture 0.25) the health score is not 100: the `temp > 32` band still
applies at exactly 38 °C. -/
theorem boundary38_health_ne_100 : (deriveMetrics boundary38Obs).health ≠ 100 := by
  norm_num [deriveMetrics, boundary38Obs, tempOf, humidityOf, precipOf, soilTOf, soilMOf,
    vpdOf, uvMaxOf, optIdx, healthScoreOf, rawHealth, jsRound]

/-- C2, amended: that observation yields `healthScore = 88`: the
strictly-above-38 penalty is indeed not triggered at exactly 38 °C, but the
32–38 band penalty `-2 × (38 - 32) = -12` is, so the score is 88 and the
stress percentage is 12. -/
theorem boundary38_health_eq_88 :
    (deriveMetrics boundary38Obs).health = 88 ∧ (deriveMetrics boundary38Obs).stressPct = 12 := by
  constructor <;>
  norm_num [deriveMetrics, boundary38Obs, tempOf, humidityOf, precipOf, soilTOf, soilMOf,
    vpdOf, uvMaxOf, optIdx, healthScoreOf, rawHealth, jsRound]

/-! ## C3 -/

/-- An observation whose daily forecast arrays have 3 entries, not 7. -/
def shortForecastObs : RawObs :=
  { temperature_2m_max := some [some 20, some 20, some 20]
    precipitation_sum := some [some 1, some 1, some 1] }

/-- C3, counterexample: an observation whose `dailyForecast` is not an
ordered 7-element sequence (its arrays have 3 entries) does not make the
derivation fail: it still produces an assessment. -/
theorem derive_ok_on_short_forecast :
    (shortForecastObs.temperature_2m_max.getD []).length ≠ 7 ∧
      derive (some shortForecastObs) = .ok (deriveMetrics shortForecastObs) := by
  exact ⟨by simp [shortForecastObs], rfl⟩

/-- C3, amended: the derivation fails (with the `InvalidObservation` error)
exactly when the observation argument is missing entirely; every present
observation — however incomplete or malformed its fields and arrays — yields
an assessment, and an absent numeric field is replaced by its documented
default (temperature 25 °C, soil moisture 0.25, VPD 1.0) rather than
propagated into a penalty branch. -/
theorem derive_error_only_when_absent :
    derive none = .error .invalidObservation ∧
      (∀ o : RawObs, derive (some o) = .ok (deriveMetrics o)) ∧
      (∀ o : RawObs,
        tempOf { o with temperature_2m := none } = 25 ∧
        soilMOf { o with soil_moisture_0_to_1cm := none } = 0.25 ∧
        vpdOf { o with vapour_pressure_deficit := none } = 1) := by
  exact ⟨rfl, fun o => rfl, fun o => ⟨rfl, rfl, rfl⟩⟩

/-! ## C4 -/

/-- The specification's URGENT irrigation scenario: soil moisture fraction
0.05 and a weekly water deficit of 40 mm. -/
def urgentIrrigObs : RawObs :=
  { soil_moisture_0_to_1cm := some [some 0.05]
    et0_fao_evapotranspiration := some [some (40/7)] }

/-- C4: the irrigation recommendation: the deficit is
`max 0 (et0Today × 7 − Σ precipitationSum)`; urgency is URGENT exactly when
`soilMoistureFraction < 0.10` or `deficit > 30`, SOON exactly when that
fails but `soilMoistureFraction < 0.20` or `deficit > 15`, OK otherwise;
each urgency carries its templated message (`round(deficit+15)` mm /
`round(deficit+8)` mm / next irrigation in `round(7 − weeklyPrecip/3)`
days); and the scenario soilMoistureFraction = 0.05 with deficit = 40 is
URGENT with a message naming `round(40+15) = 55` mm. -/
theorem irrigation_recommendation_spec (o : RawObs) :
    (deriveMetrics o).deficit = max 0 (et0Of o * 7 - precipWeekOf o) ∧
    ((deriveMetrics o).irrigUrgency = .URGENT ↔
      (soilMOf o < 0.1 ∨ (deriveMetrics o).deficit > 30)) ∧
    ((deriveMetrics o).irrigUrgency = .SOON ↔
      (¬(soilMOf o < 0.1 ∨ (deriveMetrics o).deficit > 30) ∧
        (soilMOf o < 0.2 ∨ (deriveMetrics o).deficit > 15))) ∧
    ((deriveMetrics o).irrigUrgency = .OK ↔
      (¬(soilMOf o < 0.1 ∨ (deriveMetrics o).deficit > 30) ∧
        ¬(soilMOf o < 0.2 ∨ (deriveMetrics o).deficit > 15))) ∧
    (deriveMetrics o).irrigRec =
      (match (deriveMetrics o).irrigUrgency with
        | Urgency.URGENT =>
          "Apply " ++ toString (jsRound ((deriveMetrics o).deficit + 15)) ++
            " mm within 24h. Soil critically dry."
        | Urgency.SOON =>
          "Schedule " ++ toString (jsRound ((deriveMetrics o).deficit + 8)) ++
            " mm irrigation within 3 days."
        | Urgency.OK =>
          "Sufficient moisture. Next irrigation in ~" ++
            toString (jsRound (7 - precipWeekOf o / 3)) ++ " days.") ∧
    (deriveMetrics o).deficit ≥ 0 ∧
    ((deriveMetrics urgentIrrigObs).deficit = 40 ∧
      soilMOf urgentIrrigObs = 0.05 ∧
      (deriveMetrics urgentIrrigObs).irrigUrgency = .URGENT ∧
      (deriveMetrics urgentIrrigObs).irrigRec =
        "Apply 55 mm within 24h. Soil critically dry.") := by
  have hdef : (deriveMetrics o).deficit = deficitOf (et0Of o) (precipWeekOf o) := rfl
  have hu : (deriveMetrics o).irrigUrgency =
      (irrigationOf (soilMOf o) (deficitOf (et0Of o) (precipWeekOf o)) (precipWeekOf o)).2 := rfl
  have hr : (deriveMetrics o).irrigRec =
      (irrigationOf (soilMOf o) (deficitOf (et0Of o) (precipWeekOf o)) (precipWeekOf o)).1 := rfl
  have hscen : (deriveMetrics urgentIrrigObs).deficit = 40 := by
    norm_num [deriveMetrics, urgentIrrigObs, deficitOf, et0Of, precipWeekOf, optIdx]
  refine ⟨hdef, ?_, ?_, ?_, ?_, ?_, hscen, ?_, ?_, ?_⟩
  · rw [hu, hdef]
    unfold irrigationOf
    split_ifs with h1 h2 <;> simp_all
  · rw [hu, hdef]
    unfold irrigationOf
    split_ifs with h1 h2 <;> simp_all
  · rw [hu, hdef]
    unfold irrigationOf
    split_ifs with h1 h2 <;> simp_all
  · rw [hr, hu, hdef]
    unfold irrigationOf
    split_ifs with h1 h2 <;> rfl
  · rw [hdef]
    exact le_max_left _ _
  · norm_num [soilMOf, urgentIrrigObs, optIdx]
  · have : (deriveMetrics urgentIrrigObs).irrigUrgency =
        (irrigationOf (soilMOf urgentIrrigObs)
          (deficitOf (et0Of urgentIrrigObs) (precipWeekOf urgentIrrigObs))
          (precipWeekOf urgentIrrigObs)).2 := rfl
    rw [this]
    norm_num [irrigationOf, urgentIrrigObs, soilMOf, deficitOf, et0Of, precipWeekOf, optIdx]
  · have h1 : (deriveMetrics urgentIrrigObs).irrigRec =
        (irrigationOf (soilMOf urgentIrrigObs)
          (deficitOf (et0Of urgentIrrigObs) (precipWeekOf urgentIrrigObs))
          (precipWeekOf urgentIrrigObs)).1 := rfl
    have h2 : deficitOf (et0Of urgentIrrigObs) (precipWeekOf urgentIrrigObs) = 40 := by
      norm_num [deficitOf, et0Of, precipWeekOf, urgentIrrigObs, optIdx]
    have h3 : soilMOf urgentIrrigObs = 0.05 := by
      norm_num [soilMOf, urgentIrrigObs, optIdx]
    rw [h1, h2, h3, irrigationOf]
    have h4 : (0.05 : ℚ) < 0.1 ∨ (40 : ℚ) > 30 := by norm_num
    rw [if_pos h4]
    have h5 : jsRound (40 + 15 : ℚ) = 55 := by norm_num [jsRound]
    rw [h5]
    rfl

/-! ## C5 -/

/-- The temperature-alert chain as worded by the specification (first
matching condition wins, max-heat checks before min-cold checks). -/
def spec_tempAlertLevel (dayMax dayMin : ℚ) : AlertLevel :=
  if dayMax > 42 then .CRITICAL
  else if dayMax > 36 then .HIGH
  else if dayMin < 4 then .HIGH
  else if dayMin < 10 then .MODERATE
  else .OK

/-- C5: the temperature alert follows the ordered if/else chain over
forecast day 0 (`dayMax > 42` CRITICAL, else `dayMax > 36` HIGH, else
`dayMin < 4` HIGH, else `dayMin < 10` MODERATE, else OK), and whenever the
day-0 forecast maximum is 43 the level is CRITICAL regardless of every
other field. -/
theorem temp_alert_ordered_chain (o : RawObs) (rest : List (Option ℚ)) :
    (deriveMetrics o).tempAlertLevel = spec_tempAlertLevel (tMaxOf o) (tMinOf o) ∧
      (deriveMetrics
        { o with temperature_2m_max := some (some 43 :: rest) }).tempAlertLevel =
        .CRITICAL := by
  constructor
  · rfl
  · have h43 : tMaxOf { o with temperature_2m_max := some (some 43 :: rest) } = 43 := rfl
    have : (deriveMetrics { o with temperature_2m_max := some (some 43 :: rest) }).tempAlertLevel =
        tempAlertLevelOf 43 (tMinOf { o with temperature_2m_max := some (some 43 :: rest) }) := rfl
    rw [this, tempAlertLevelOf]
    norm_num

/-! ## C6 -/

lemma nMsg_ne_adequateMsg (d : ℤ) : nMsg d ≠ adequateMsg := by
  intro h
  have h1 : (nMsg d).data.head? = adequateMsg.data.head? := by rw [h]
  rw [nMsg, String.data_append, String.data_append, List.append_assoc,
    List.head?_append_of_ne_nil _ (by decide)] at h1
  exact absurd h1 (by decide)

lemma pMsg_ne_adequateMsg (d : ℤ) : pMsg d ≠ adequateMsg := by
  intro h
  have h1 : (pMsg d).data.head? = adequateMsg.data.head? := by rw [h]
  rw [pMsg, String.data_append, String.data_append, List.append_assoc,
    List.head?_append_of_ne_nil _ (by decide)] at h1
  exact absurd h1 (by decide)

lemma kMsg_ne_adequateMsg (d : ℤ) : kMsg d ≠ adequateMsg := by
  intro h
  have h1 : (kMsg d).data.head? = adequateMsg.data.head? := by rw [h]
  rw [kMsg, String.data_append, String.data_append, List.append_assoc,
    List.head?_append_of_ne_nil _ (by decide)] at h1
  exact absurd h1 (by decide)

lemma nutrientAlertsOf_spec (n p k : ℤ) :
    (nutrientAlertsOf n p k = [adequateMsg] ↔ 60 ≤ n ∧ 60 ≤ p ∧ 60 ≤ k) ∧
    (adequateMsg ∈ nutrientAlertsOf n p k ↔ 60 ≤ n ∧ 60 ≤ p ∧ 60 ≤ k) ∧
    nutrientAlertsOf n p k =
      (if n < 60 ∨ p < 60 ∨ k < 60 then
        (if n < 60 then [nMsg (100 - n)] else [])
          ++ (if p < 60 then [pMsg (100 - p)] else [])
          ++ (if k < 60 then [kMsg (100 - k)] else [])
      else [adequateMsg]) := by
  by_cases hn : n < 60 <;> by_cases hp : p < 60 <;> by_cases hk : k < 60 <;>
    simp [nutrientAlertsOf, hn, hp, hk, not_lt.mp, nMsg_ne_adequateMsg,
      pMsg_ne_adequateMsg, kMsg_ne_adequateMsg,
      (nMsg_ne_adequateMsg _).symm, (pMsg_ne_adequateMsg _).symm,
      (kMsg_ne_adequateMsg _).symm]

/-- C6: the nutrient alert list is the single "adequate" message precisely
when all three nutrient scores are at least 60; otherwise it contains no
"adequate" message and consists of exactly one templated advisory per score
below 60, each naming its deficit `100 − score`, in N, P, K order. -/
theorem nutrient_alerts_spec (o : RawObs) :
    ((deriveMetrics o).nutrientAlerts = [adequateMsg] ↔
      60 ≤ (deriveMetrics o).nScore ∧ 60 ≤ (deriveMetrics o).pScore ∧
        60 ≤ (deriveMetrics o).kScore) ∧
    (adequateMsg ∈ (deriveMetrics o).nutrientAlerts ↔
      60 ≤ (deriveMetrics o).nScore ∧ 60 ≤ (deriveMetrics o).pScore ∧
        60 ≤ (deriveMetrics o).kScore) ∧
    (deriveMetrics o).nutrientAlerts =
      (if (deriveMetrics o).nScore < 60 ∨ (deriveMetrics o).pScore < 60 ∨
          (deriveMetrics o).kScore < 60 then
        (if (deriveMetrics o).nScore < 60 then [nMsg (100 - (deriveMetrics o).nScore)] else [])
          ++ (if (deriveMetrics o).pScore < 60 then [pMsg (100 - (deriveMetrics o).pScore)] else [])
          ++ (if (deriveMetrics o).kScore < 60 then [kMsg (100 - (deriveMetrics o).kScore)] else [])
      else [adequateMsg]) := by
  exact nutrientAlertsOf_spec _ _ _

/-! ## C7 -/

/-- The soil-status thresholds as worded by the specification
(`≥ 80` EXCELLENT, `≥ 60` GOOD, `≥ 40` FAIR, else POOR). -/
def spec_soilStatus (composite : ℤ) : SoilStatus :=
  if composite ≥ 80 then .EXCELLENT
  else if composite ≥ 60 then .GOOD
  else if composite ≥ 40 then .FAIR
  else .POOR

/-- C7: the soil-health composite score is the rounded unweighted mean of
the six reported subscores (moisture, soil temperature, aeration, organic
matter, microbial activity, structure), and the reported status follows the
specification's thresholds on that composite. -/
theorem soil_composite_mean_and_status (o : RawObs) :
    (deriveMetrics o).soilHealth =
      jsRound (((deriveMetrics o).mScore + (deriveMetrics o).stScore +
        (deriveMetrics o).aerationScore + ((deriveMetrics o).organicScore : ℚ) +
        ((deriveMetrics o).microbialScore : ℚ) +
        ((deriveMetrics o).structureScore : ℚ)) / 6) ∧
    (deriveMetrics o).soilStatus = spec_soilStatus (deriveMetrics o).soilHealth := by
  exact ⟨rfl, rfl⟩

/-! ## C8 -/

lemma mScoreOf_bounds (pct : ℚ) : 0 ≤ mScoreOf pct ∧ mScoreOf pct ≤ 100 := by
  unfold mScoreOf
  split_ifs <;> norm_num

lemma stScoreOf_bounds (soilT : ℚ) : 0 ≤ stScoreOf soilT ∧ stScoreOf soilT ≤ 100 := by
  unfold stScoreOf
  split_ifs <;> norm_num

lemma aerationOf_bounds (pct : ℚ) : 0 ≤ aerationOf pct ∧ aerationOf pct ≤ 100 := by
  unfold aerationOf
  split_ifs with h1 h2
  · constructor
    · have h : (20 : ℚ) ≤ max 20 (100 - (pct - 50) * 3) := le_max_left _ _
      linarith
    · exact max_le (by norm_num) (by nlinarith)
  · norm_num
  · norm_num

lemma trendOf_h_bounds (o : RawObs) (temp soilM uvMax : ℚ) :
    List.Forall (fun d => 0 ≤ d.h ∧ d.h ≤ 100) (trendOf o temp soilM uvMax) := by
  rw [List.forall_iff_forall_mem]
  intro d hd
  rw [trendOf, List.mem_map] at hd
  obtain ⟨x, hx, rfl⟩ := hd
  exact ⟨le_max_left _ _, max_le (by norm_num) (min_le_left _ _)⟩

/-- C8: every bounded score of the assessment is reported inside `[0, 100]`:
the three nutrient scores, all six soil subscores, and the per-day health
score of every reported trend entry. -/
theorem all_reported_scores_in_range (o : RawObs) :
    (0 ≤ (deriveMetrics o).nScore ∧ (deriveMetrics o).nScore ≤ 100) ∧
    (0 ≤ (deriveMetrics o).pScore ∧ (deriveMetrics o).pScore ≤ 100) ∧
    (0 ≤ (deriveMetrics o).kScore ∧ (deriveMetrics o).kScore ≤ 100) ∧
    (0 ≤ (deriveMetrics o).mScore ∧ (deriveMetrics o).mScore ≤ 100) ∧
    (0 ≤ (deriveMetrics o).stScore ∧ (deriveMetrics o).stScore ≤ 100) ∧
    (0 ≤ (deriveMetrics o).aerationScore ∧ (deriveMetrics o).aerationScore ≤ 100) ∧
    (0 ≤ (deriveMetrics o).organicScore ∧ (deriveMetrics o).organicScore ≤ 100) ∧
    (0 ≤ (deriveMetrics o).microbialScore ∧ (deriveMetrics o).microbialScore ≤ 100) ∧
    (0 ≤ (deriveMetrics o).structureScore ∧ (deriveMetrics o).structureScore ≤ 100) ∧
    List.Forall (fun d => 0 ≤ d.h ∧ d.h ≤ 100) (deriveMetrics o).trend := by
  refine ⟨?_, ?_, ?_, ?_, ?_, ?_, ?_, ?_, ?_, ?_⟩
  · exact jsRound_clamp_bounds 0 _ (by norm_num) (by norm_num)
  · exact jsRound_clamp_bounds 0 _ (by norm_num) (by norm_num)
  · exact jsRound_clamp_bounds 0 _ (by norm_num) (by norm_num)
  · exact mScoreOf_bounds _
  · exact stScoreOf_bounds _
  · exact aerationOf_bounds _
  · exact jsRound_clamp_bounds 20 _ (by norm_num) (by norm_num)
  · exact jsRound_clamp_bounds 10 _ (by norm_num) (by norm_num)
  · exact jsRound_clamp_bounds 20 _ (by norm_num) (by norm_num)
  · exact trendOf_h_bounds _ _ _ _

/-! ## C9 -/

/-- An observation whose day-0 forecast maximum (43 °C) penalises the day-0
trend entry while the current conditions leave the main health score at 100. -/
def divergenceObs : RawObs :=
  { temperature_2m_max := some [some 43, some 30, some 30, some 30, some 30, some 30, some 30] }

/-- C9: the day-0 entry of the 7-day trend and the primary health score are
independent computations: there is a valid observation whose day-0 trend
health score differs from the health score computed for the same day. -/
theorem trend_day0_independent_of_health :
    ∃ (o : RawObs) (d : TrendDay),
      (deriveMetrics o).trend.head? = some d ∧ d.day = 0 ∧
        d.h ≠ (deriveMetrics o).health := by
  refine ⟨divergenceObs, ⟨0, 80, 43, 0⟩, ?_, rfl, ?_⟩
  · norm_num [deriveMetrics, divergenceObs, trendOf, optIdx, List.enum, List.enumFrom,
      jsRound, soilMOf, uvMaxOf, tempOf, precipWeekOf]
  · have h : (deriveMetrics divergenceObs).health = 100 := by
      norm_num [deriveMetrics, divergenceObs, healthScoreOf, rawHealth, tempOf, humidityOf,
        soilMOf, vpdOf, uvMaxOf, optIdx, jsRound]
    rw [h]
    decide

/-! ## C10 -/

/-- An observation with a wet forecast week (30 mm of forecast precipitation,
no evapotranspiration) and adequate soil moisture. -/
def wetWeekObs : RawObs :=
  { precipitation_sum := some [some 30, some 0, some 0, some 0, some 0, some 0, some 0]
    et0_fao_evapotranspiration := some [some 0] }

/-- C10: the OK-branch day count `round(7 − weeklyPrecipitation/3)` has no
lower bound: with urgency OK (soil moisture fraction 0.25 ≥ 0.20 and
deficit 0 ≤ 15) and 30 mm of weekly precipitation (above 19.5 mm), the
recommended next-irrigation delay is the negative value −3, and the message
reports it verbatim. -/
theorem ok_branch_day_count_negative :
    (deriveMetrics wetWeekObs).irrigUrgency = .OK ∧
    (0.2 : ℚ) ≤ soilMOf wetWeekObs ∧
    (deriveMetrics wetWeekObs).deficit ≤ 15 ∧
    precipWeekOf wetWeekObs = 30 ∧ (19.5 : ℚ) < 30 ∧
    jsRound (7 - precipWeekOf wetWeekObs / 3) = -3 ∧ (-3 : ℤ) ≤ 0 ∧
    (deriveMetrics wetWeekObs).irrigRec =
      "Sufficient moisture. Next irrigation in ~-3 days." := by
  have hw : precipWeekOf wetWeekObs = 30 := by
    norm_num [precipWeekOf, wetWeekObs]
  have hs : soilMOf wetWeekObs = 0.25 := rfl
  have he : et0Of wetWeekObs = 0 := rfl
  have hd : deficitOf (et0Of wetWeekObs) (precipWeekOf wetWeekObs) = 0 := by
    rw [he, hw, deficitOf]
    norm_num
  have hdef : (deriveMetrics wetWeekObs).deficit =
      deficitOf (et0Of wetWeekObs) (precipWeekOf wetWeekObs) := rfl
  have hu : (deriveMetrics wetWeekObs).irrigUrgency =
      (irrigationOf (soilMOf wetWeekObs)
        (deficitOf (et0Of wetWeekObs) (precipWeekOf wetWeekObs))
        (precipWeekOf wetWeekObs)).2 := rfl
  have hr : (deriveMetrics wetWeekObs).irrigRec =
      (irrigationOf (soilMOf wetWeekObs)
        (deficitOf (et0Of wetWeekObs) (precipWeekOf wetWeekObs))
        (precipWeekOf wetWeekObs)).1 := rfl
  have hround : jsRound (7 - (30 : ℚ) / 3) = -3 := by
    norm_num [jsRound]
  refine ⟨?_, ?_, ?_, hw, by norm_num, ?_, by norm_num, ?_⟩
  · rw [hu, hd, hs, hw, irrigationOf]
    rw [if_neg (by norm_num), if_neg (by norm_num)]
  · rw [hs]
    norm_num
  · rw [hdef, hd]
    norm_num
  · rw [hw]
    exact hround
  · rw [hr, hd, hs, hw, irrigationOf]
    rw [if_neg (by norm_num), if_neg (by norm_num)]
    rw [hround]
    decide
